import Mathlib

/-!
Verification of the starknet-hardhat-plugin task actions (src/task-actions.ts).

The TypeScript actions are shallowly embedded as Lean functions.  Effectful
code is modelled in a trace monad `Proc`: a computation yields the ordered
list of externally visible events (file initialisations and writes, external
compiler invocations, cache updates, devnet lifecycle steps) together with an
`Except String` result, where `Except.error` models a thrown
`StarknetPluginError` (or any propagating exception).  Sequencing `bindP`
mirrors JavaScript semantics: once an exception is thrown, no later statement
runs and no later event is emitted.

Outcomes of external processes (the cairo compilers, scarb, devnet start) are
supplied by oracle parameters, since the binaries are external collaborators.
Helpers of the repository that are not part of the provided source
(src/utils.ts, src/constants.ts, the Recompiler) are modelled from the spec
where a claim needs them; each such definition carries a doc comment starting
with `Modelled from the spec:`.
-/

/-- Externally visible events emitted by the embedded task actions. -/
inductive Ev where
  /-- `fs.mkdirSync(p, recursive)` -/
  | mkdir (p : String) : Ev
  /-- `initializeFile(p)`: delete if present, then create empty -/
  | initFile (p : String) : Ev
  /-- `fs.writeFileSync(p, content)` -/
  | writeFile (p : String) (content : String) : Ev
  /-- `fs.copyFileSync(src, dst)` -/
  | copyFile (src : String) (dst : String) : Ev
  /-- `hre.starknetWrapper.compileCairoToSierra` on `file`, writing `output` -/
  | compileSierra (file : String) (output : String) : Ev
  /-- `hre.starknetWrapper.compileSierraToCasm` on `file`, writing `output` -/
  | compileCasm (file : String) (output : String) : Ev
  /-- `hre.starknetWrapper.deprecatedCompile` on `file`, writing `output` and `abi` -/
  | deprecatedCompile (file : String) (output : String) (abi : String) : Ev
  /-- `scarbWrapper.build(packageConfigPath, artifactDirPath)` -/
  | scarbBuild (packageConfigPath : String) (artifactDirPath : String) : Ev
  /-- `recompiler.updateCache(args, file, ...)` -/
  | updateCache (file : String) : Ev
  /-- `recompiler.saveCache()` -/
  | saveCache : Ev
  /-- `recompiler.handleCache()` in the test/run actions -/
  | handleCache : Ev
  /-- `setRuntimeNetwork` resolved the runtime network -/
  | resolveNetwork : Ev
  /-- `devnet.start()` was invoked -/
  | devnetStart : Ev
  /-- `devnet.stop()` was invoked -/
  | devnetStop : Ev
  /-- the caller-supplied unit of work (`runSuper`) ran -/
  | runFn : Ev
deriving DecidableEq, Repr

deriving instance DecidableEq for Except

/-- A computation of the embedded actions: the emitted event trace together
with a normal result or a thrown exception (its message). -/
abbrev Proc (α : Type) : Type := List Ev × Except String α

/-- Return without emitting events. -/
def pureP {α : Type} (a : α) : Proc α := ([], Except.ok a)

/-- Throw an exception (a `StarknetPluginError` in the source). -/
def throwP {α : Type} (msg : String) : Proc α := ([], Except.error msg)

/-- Emit one event and succeed. -/
def emit (e : Ev) : Proc Unit := ([e], Except.ok ())

/-- Sequencing with JavaScript exception semantics: if the first computation
throws, the continuation is never run and emits nothing. -/
def bindP {α β : Type} (m : Proc α) (f : α → Proc β) : Proc β :=
  match m with
  | (tr, Except.error e) => (tr, Except.error e)
  | (tr, Except.ok a) => (tr ++ (f a).1, (f a).2)

theorem bindP_ok {α β : Type} (tr : List Ev) (a : α) (f : α → Proc β) :
    bindP (tr, Except.ok a) f = (tr ++ (f a).1, (f a).2) := rfl

theorem bindP_error {α β : Type} (tr : List Ev) (e : String) (f : α → Proc β) :
    bindP (tr, Except.error e) f = (tr, Except.error e) := rfl

/-! ## String helpers

The builtin `String` functions (`splitOn`, `isPrefixOf`, ...) are implemented
with iterators and do not reduce inside the kernel, so the few operations the
actions need are restated structurally over `String.data`. -/

/-- `s.isEmpty`, computed structurally. -/
def sIsEmpty (s : String) : Bool := s.data.isEmpty

/-- JavaScript truthiness of an optional string: `undefined` and `""` are
falsy, every other string is truthy. -/
def truthyOptStr : Option String → Bool
  | none => false
  | some s => !sIsEmpty s

/-! ## Path helpers (Node `path` module behavior used by the actions) -/

/-- Whether a path string starts with the separator. -/
def startsWithSlash (b : String) : Bool :=
  match b.data with
  | c :: _ => c == '/'
  | [] => false

/-- `path.join(a, b)` as used by the actions: insert a separator unless the
second component already starts with one (Node collapses the duplicate
separator in that case). -/
def pjoin (a b : String) : String :=
  if startsWithSlash b then a ++ b else a ++ "/" ++ b

/-- `file.replace(new RegExp("^" + root), "")`: strip the project root
prefix from an absolute path. -/
def stripRoot (root file : String) : String :=
  if root.data.isPrefixOf file.data then String.mk (file.data.drop root.data.length) else file

/-- Split a character list at a separator character. -/
def splitOnCharAux (sep : Char) : List Char → List Char → List (List Char)
  | [], acc => [acc.reverse]
  | x :: xs, acc =>
    if x = sep then acc.reverse :: splitOnCharAux sep xs []
    else splitOnCharAux sep xs (x :: acc)

/-- The components of a path separated by `/`. -/
def splitPath (p : String) : List String :=
  (splitOnCharAux '/' p.data []).map String.mk

/-- Interleave a separator between strings (structural `intercalate`). -/
def joinSep (sep : String) : List String → String
  | [] => ""
  | [x] => x
  | x :: xs => x ++ sep ++ joinSep sep xs

/-- `path.basename(p)`: the last path component. -/
def basename (p : String) : String := (splitPath p).getLastD ""

/-- `path.dirname(p)`: the path without its last component. -/
def dirname (p : String) : String :=
  let cs := splitPath p
  joinSep "/" (cs.take (cs.length - 1))

/-- `path.extname(p)`: from the last `.` of the basename to the end;
empty if the basename has no dot or only a leading dot. -/
def extname (p : String) : String :=
  let b := (basename p).data
  match b.reverse.findIdx? (fun c => c = '.') with
  | none => ""
  | some i =>
    let dotPos := b.length - 1 - i
    if dotPos = 0 then "" else String.mk (b.drop dotPos)

/-- `getFileName` of task-actions.ts: `path.basename(p, path.extname(p))`. -/
def getFileName (p : String) : String :=
  let b := basename p
  let e := extname p
  if sIsEmpty e then b else String.mk (b.data.take (b.data.length - e.data.length))

example : getFileName "/contracts/alpha.cairo" = "alpha" := by decide
example : stripRoot "/proj" "/proj/contracts/alpha.cairo" = "/contracts/alpha.cairo" := by decide
example : dirname "/proj/cairo_dir/Scarb.toml" = "/proj/cairo_dir" := by decide

/-! ## JSON values and serialisation

`starknetCompileCairo1Action` and `starknetBuildAction` read the compiled
sierra file, take its `abi` member and write `JSON.stringify(abi) + "\n"`
to the standalone ABI file.  `JSON.stringify` with no spacing argument is
the compact, single-line serialisation. -/

inductive Json where
  | null : Json
  | bool : Bool → Json
  | num : Int → Json
  | str : String → Json
  | arr : List Json → Json
  | obj : List (String × Json) → Json

/-- Escaping of one character inside a JSON string literal. -/
def escapeJsonChar (c : Char) : String :=
  if c = '"' then "\\\""
  else if c = '\\' then "\\\\"
  else if c = '\n' then "\\n"
  else if c = '\t' then "\\t"
  else if c = '\r' then "\\r"
  else String.mk [c]

/-- Escaping of a JSON string literal body. -/
def escapeJson (s : String) : String := String.join (s.data.map escapeJsonChar)

mutual
/-- `JSON.stringify(v)`: the compact serialisation, no whitespace. -/
def jsonStringify : Json → String
  | Json.null => "null"
  | Json.bool b => cond b "true" "false"
  | Json.num n => toString n
  | Json.str s => "\"" ++ escapeJson s ++ "\""
  | Json.arr xs => "[" ++ joinSep "," (jsonStringifyList xs) ++ "]"
  | Json.obj fs => "\x7b" ++ joinSep "," (jsonStringifyFields fs) ++ "\x7d"

def jsonStringifyList : List Json → List String
  | [] => []
  | x :: xs => jsonStringify x :: jsonStringifyList xs

def jsonStringifyFields : List (String × Json) → List String
  | [] => []
  | (k, v) :: fs =>
    ("\"" ++ escapeJson k ++ "\":" ++ jsonStringify v) :: jsonStringifyFields fs
end

/-- `n` spaces. -/
def spacesN (n : Nat) : String := String.mk (List.replicate n ' ')

mutual
/-- Modelled from the spec: the spec calls the written ABI "pretty-printed".
Pretty-printing in the style of `JSON.stringify(v, null, 4)`: elements on
their own lines, nested four-space indentation.  This definition exists only
to compare the spec wording against what the source writes. -/
def jsonPretty (ind : Nat) : Json → String
  | Json.null => "null"
  | Json.bool b => cond b "true" "false"
  | Json.num n => toString n
  | Json.str s => "\"" ++ escapeJson s ++ "\""
  | Json.arr [] => "[]"
  | Json.arr (x :: xs) =>
    "[\n" ++ joinSep ",\n" (jsonPrettyList (ind + 4) (x :: xs)) ++ "\n" ++ spacesN ind ++ "]"
  | Json.obj [] => "\x7b\x7d"
  | Json.obj (f :: fs) =>
    "\x7b\n" ++ joinSep ",\n" (jsonPrettyFields (ind + 4) (f :: fs)) ++ "\n"
      ++ spacesN ind ++ "\x7d"

def jsonPrettyList (ind : Nat) : List Json → List String
  | [] => []
  | x :: xs => (spacesN ind ++ jsonPretty ind x) :: jsonPrettyList ind xs

def jsonPrettyFields (ind : Nat) : List (String × Json) → List String
  | [] => []
  | (k, v) :: fs =>
    (spacesN ind ++ "\"" ++ escapeJson k ++ "\": " ++ jsonPretty ind v)
      :: jsonPrettyFields ind fs
end

example : jsonStringify (Json.arr [Json.num 1, Json.str "a"]) = "[1,\"a\"]" := by decide

/-! ## Constants

src/constants.ts is not part of the provided source.  The suffix values are
modelled from the spec (section 6, canonical artifact layout: a
`<name>.json` IR file, an assembly file and a `<name>_abi.json` file); the
claims depend only on the suffixes being pairwise distinct. -/

/-- Modelled from the spec: suffix of the standalone ABI artifact file. -/
def ABI_SUFFIX : String := "_abi.json"

/-- Modelled from the spec: suffix of the intermediate-representation
(sierra) artifact written by the two-stage pipeline. -/
def CAIRO1_SIERRA_SUFFIX : String := ".json"

/-- Modelled from the spec: suffix of the low-level assembly (casm)
artifact. -/
def CAIRO1_ASSEMBLY_SUFFIX : String := ".casm"

/-! ## The two-stage (Cairo 1) compile action

`starknetCompileCairo1Action` (task-actions.ts, lines 163-246).  The per-file
compiler outcomes are an oracle `o : String → Cairo1Outcome`: whether the
sierra stage succeeds, the `abi` member of the sierra output the compiler
wrote, and whether the casm stage succeeds. -/

/-- Oracle data for one source file in the two-stage pipeline. -/
structure Cairo1Outcome where
  /-- stage 1 (`compileCairoToSierra`) exited with status 0 -/
  sierraOk : Bool
  /-- the `abi` member of the sierra output file written by stage 1 -/
  abi : Json
  /-- stage 2 (`compileSierraToCasm`) exited with status 0 -/
  casmOk : Bool

/-- The artifact directory of `file`: `path.join(artifactsPath, dirSuffix)`
where `dirSuffix = file.replace(rootRegex, "")`. -/
def cairoArtifactDir (artifacts root file : String) : String :=
  pjoin artifacts (stripRoot root file)

/-- The sierra output path of `file`:
`path.join(dirPath, fileName + CAIRO1_SIERRA_SUFFIX)`. -/
def cairo1SierraPath (artifacts root file : String) : String :=
  pjoin (cairoArtifactDir artifacts root file)
    (getFileName (stripRoot root file) ++ CAIRO1_SIERRA_SUFFIX)

/-- The standalone ABI output path of `file`:
`path.join(dirPath, fileName + ABI_SUFFIX)`. -/
def cairo1AbiPath (artifacts root file : String) : String :=
  pjoin (cairoArtifactDir artifacts root file)
    (getFileName (stripRoot root file) ++ ABI_SUFFIX)

/-- The casm output path of `file`:
`path.join(dirPath, fileName + CAIRO1_ASSEMBLY_SUFFIX)`. -/
def cairo1CasmPath (artifacts root file : String) : String :=
  pjoin (cairoArtifactDir artifacts root file)
    (getFileName (stripRoot root file) ++ CAIRO1_ASSEMBLY_SUFFIX)

/-- The body of the per-file loop of `starknetCompileCairo1Action`
(lines 183-238).  Returns this file's contribution to `statusCode`. -/
def compileCairo1File (artifacts root : String) (o : String → Cairo1Outcome)
    (file : String) : Proc Nat :=
  let dirPath := cairoArtifactDir artifacts root file
  let outputPath := cairo1SierraPath artifacts root file
  bindP (emit (Ev.mkdir dirPath)) fun _ =>
  bindP (emit (Ev.initFile outputPath)) fun _ =>
  bindP (emit (Ev.compileSierra file outputPath)) fun _ =>
  if (o file).sierraOk = false then
    -- continue with compiling to casm only if compiling to sierra succeeded
    pureP 1
  else
    let abiOutput := cairo1AbiPath artifacts root file
    bindP (emit (Ev.initFile abiOutput)) fun _ =>
    bindP (emit (Ev.writeFile abiOutput (jsonStringify (o file).abi ++ "\n"))) fun _ =>
    let casmOutput := cairo1CasmPath artifacts root file
    bindP (emit (Ev.initFile casmOutput)) fun _ =>
    bindP (emit (Ev.compileCasm outputPath casmOutput)) fun _ =>
    -- update cache after compilation
    bindP (emit (Ev.updateCache file)) fun _ =>
    pureP (if (o file).casmOk then 0 else 1)

/-- The inner loop of `starknetCompileCairo1Action` over the files of one
sources path, accumulating `statusCode`. -/
def compileCairo1Files (artifacts root : String) (o : String → Cairo1Outcome) :
    List String → Proc Nat
  | [] => pureP 0
  | f :: fs =>
    bindP (compileCairo1File artifacts root o f) fun s =>
    bindP (compileCairo1Files artifacts root o fs) fun s2 =>
    pureP (s + s2)

/-- One sources path of `starknetCompileCairo1Action`: its traversed files,
then `recompiler.saveCache()`. -/
def compileCairo1Dir (artifacts root : String) (o : String → Cairo1Outcome)
    (files : List String) : Proc Nat :=
  bindP (compileCairo1Files artifacts root o files) fun s =>
  bindP (emit Ev.saveCache) fun _ =>
  pureP s

/-- The outer loop of `starknetCompileCairo1Action` over the sources paths.
Each sources path is represented by the file list that `traverseFiles`
produced for it. -/
def compileCairo1Dirs (artifacts root : String) (o : String → Cairo1Outcome) :
    List (List String) → Proc Nat
  | [] => pureP 0
  | d :: ds =>
    bindP (compileCairo1Dir artifacts root o d) fun s =>
    bindP (compileCairo1Dirs artifacts root o ds) fun s2 =>
    pureP (s + s2)

/-- The aggregate error message thrown at the end of the compile actions
when `statusCode` is non-zero. -/
def failedCompilationMsg (n : Nat) : String :=
  "Failed compilation of " ++ toString n ++ " contract" ++ (if n == 1 then "" else "s") ++ "."

/-- `starknetCompileCairo1Action` over already-traversed sources paths. -/
def starknetCompileCairo1Action (artifacts root : String) (o : String → Cairo1Outcome)
    (dirs : List (List String)) : Proc Unit :=
  bindP (compileCairo1Dirs artifacts root o dirs) fun statusCode =>
  if statusCode = 0 then pureP () else throwP (failedCompilationMsg statusCode)

/-! ## The legacy (deprecated) compile action

`starknetDeprecatedCompileAction` (task-actions.ts, lines 248-315).  One
external invocation per file produces bytecode and ABI; `dep file` is the
oracle for whether that invocation exited with status 0.  The `cairoPath`
string is assembled from configuration not under src/ and is passed in. -/

/-- The bytecode output path of `file` in the deprecated pipeline:
`path.join(dirPath, fileName + ".json")`. -/
def deprecatedOutputPath (artifacts root file : String) : String :=
  pjoin (cairoArtifactDir artifacts root file) (getFileName (stripRoot root file) ++ ".json")

/-- The ABI output path of `file` in the deprecated pipeline. -/
def deprecatedAbiPath (artifacts root file : String) : String :=
  pjoin (cairoArtifactDir artifacts root file) (getFileName (stripRoot root file) ++ ABI_SUFFIX)

/-- The body of the per-file loop of `starknetDeprecatedCompileAction`
(lines 283-307).  Returns this file's contribution to `statusCode`.
Note that `recompiler.updateCache` is invoked unconditionally, before the
exit status of the compilation is even inspected. -/
def compileDeprecatedFile (artifacts root : String) (dep : String → Bool)
    (file : String) : Proc Nat :=
  let dirPath := cairoArtifactDir artifacts root file
  let outputPath := deprecatedOutputPath artifacts root file
  let abiPath := deprecatedAbiPath artifacts root file
  bindP (emit (Ev.mkdir dirPath)) fun _ =>
  bindP (emit (Ev.initFile outputPath)) fun _ =>
  bindP (emit (Ev.initFile abiPath)) fun _ =>
  bindP (emit (Ev.deprecatedCompile file outputPath abiPath)) fun _ =>
  -- update cache after compilation
  bindP (emit (Ev.updateCache file)) fun _ =>
  pureP (if dep file then 0 else 1)

/-- The inner loop of `starknetDeprecatedCompileAction` over the files of
one sources path. -/
def compileDeprecatedFiles (artifacts root : String) (dep : String → Bool) :
    List String → Proc Nat
  | [] => pureP 0
  | f :: fs =>
    bindP (compileDeprecatedFile artifacts root dep f) fun s =>
    bindP (compileDeprecatedFiles artifacts root dep fs) fun s2 =>
    pureP (s + s2)

/-- One sources path of `starknetDeprecatedCompileAction`, ending with
`recompiler.saveCache()`. -/
def compileDeprecatedDir (artifacts root : String) (dep : String → Bool)
    (files : List String) : Proc Nat :=
  bindP (compileDeprecatedFiles artifacts root dep files) fun s =>
  bindP (emit Ev.saveCache) fun _ =>
  pureP s

/-- The outer loop of `starknetDeprecatedCompileAction` over sources paths. -/
def compileDeprecatedDirs (artifacts root : String) (dep : String → Bool) :
    List (List String) → Proc Nat
  | [] => pureP 0
  | d :: ds =>
    bindP (compileDeprecatedDir artifacts root dep d) fun s =>
    bindP (compileDeprecatedDirs artifacts root dep ds) fun s2 =>
    pureP (s + s2)

/-- `starknetDeprecatedCompileAction` over already-traversed sources paths. -/
def starknetDeprecatedCompileAction (artifacts root : String) (dep : String → Bool)
    (dirs : List (List String)) : Proc Unit :=
  bindP (compileDeprecatedDirs artifacts root dep dirs) fun statusCode =>
  if statusCode = 0 then pureP () else throwP (failedCompilationMsg statusCode)

/-! ## The manifest-based (Scarb) build action

`starknetBuildAction` (task-actions.ts, lines 317-410) plus its helpers
`loadScarbTomlFromPath` (lines 93-125) and `loadScarbMainArtifact`
(lines 127-137). -/

/-- One entry of the `target."starknet-contract"` array of a Scarb.toml. -/
structure TargetConfig where
  /-- optional `name` scoping the target config -/
  name : Option String
  /-- the boolean `sierra` flag (absent means false) -/
  sierra : Bool
  /-- the boolean `casm` flag (absent means false) -/
  casm : Bool
deriving DecidableEq, Repr

/-- A parsed Scarb.toml: the `package.name` field and the
`target."starknet-contract"` array. -/
structure ScarbConfig where
  /-- `config.package.name` -/
  packageName : String
  /-- `config.target["starknet-contract"]`, empty when absent -/
  targets : List TargetConfig
deriving DecidableEq, Repr

/-- The message of a `ScarbConfigValidationError` (lines 83-91). -/
def scarbValidationMsg (path msg : String) : String :=
  "Invalid config file " ++ path ++ ": " ++ msg
    ++ "\nTo skip this validation, use the --skip-validate flag in the CLI"

/-- The message of the first validation failure (lines 107-110). -/
def nameErrorMsg : String :=
  "Property \x27name\x27 of [[target.starknet-contract]] must be left out or equal the [package] name"

/-- The message of the second validation failure (lines 116-122). -/
def sierraCasmErrorMsg : String :=
  "To allow later loading of this project\x27s contracts, "
    ++ "your TOML file must set \x27sierra\x27 and \x27casm\x27 to \x60true\x60 under [[target.starknet-contract]]"

/-- The candidate target configs of `loadScarbTomlFromPath` (lines 102-104):
entries with a falsy `name` (unconditional) or a `name` equal to the
package name. -/
def scarbConfigCandidates (cfg : ScarbConfig) : List TargetConfig :=
  cfg.targets.filter fun t => (!truthyOptStr t.name) || t.name == some cfg.packageName

/-- `loadScarbTomlFromPath` (lines 93-125), applied to the already-parsed
TOML document `cfg`. -/
def loadScarbTomlFromPath (tomlPath : String) (cfg : ScarbConfig) (validate : Bool) :
    Except String ScarbConfig :=
  if validate then
    let configCandidates := scarbConfigCandidates cfg
    if configCandidates.length == 0 then
      Except.error (scarbValidationMsg tomlPath nameErrorMsg)
    else
      -- contractTargetConfig = configCandidates[0] (assume length = 1)
      match configCandidates.head? with
      | none => Except.error (scarbValidationMsg tomlPath sierraCasmErrorMsg)
      | some contractTargetConfig =>
        if !contractTargetConfig.sierra || !contractTargetConfig.casm then
          Except.error (scarbValidationMsg tomlPath sierraCasmErrorMsg)
        else Except.ok cfg
  else Except.ok cfg

/-- The expected build-report path of `loadScarbMainArtifact`:
`path.join(scarbArtifactDirPath, packageName + ".starknet_artifacts.json")`. -/
def scarbMainArtifactPath (scarbArtifactDirPath packageName : String) : String :=
  pjoin scarbArtifactDirPath (packageName ++ ".starknet_artifacts.json")

/-- The error message of `loadScarbMainArtifact` when the build-report file
is absent (lines 132-135). -/
def scarbMainArtifactMissingMsg (scarbArtifactDirPath packageName : String) : String :=
  "Error in building " ++ packageName ++ ", could not find "
    ++ scarbMainArtifactPath scarbArtifactDirPath packageName

/-- One contract entry of the scarb build report
(`<packageName>.starknet_artifacts.json`). -/
structure ContractEntry where
  /-- the report's `package_name` -/
  package_name : String
  /-- the report's `contract_name` -/
  contract_name : String
  /-- the report's `artifacts.sierra` relative path (falsy when the target
  config omitted sierra, e.g. when validation was skipped) -/
  sierra : Option String
  /-- the report's `artifacts.casm` relative path -/
  casm : Option String
  /-- the `abi` member of the sierra file the report points at (read back
  by the action to derive the standalone ABI file) -/
  sierraAbi : Json

/-- Oracle data for one manifest processed by `starknetBuildAction`: its
parsed Scarb.toml, whether `scarbWrapper.build` exited with status 0,
whether the build-report file exists, and the report's contract entries. -/
structure ManifestOracle where
  /-- the parsed Scarb.toml document -/
  cfg : ScarbConfig
  /-- `scarbWrapper.build` exited with status 0 -/
  buildOk : Bool
  /-- the `<packageName>.starknet_artifacts.json` build report exists -/
  reportPresent : Bool
  /-- the contract entries of the build report -/
  contracts : List ContractEntry

/-- `loadScarbMainArtifact` (lines 127-137): the report contents on
success, a thrown error naming the expected path when the file is absent. -/
def loadScarbMainArtifact (scarbArtifactDirPath packageName : String)
    (reportPresent : Bool) (contracts : List ContractEntry) :
    Except String (List ContractEntry) :=
  if reportPresent then Except.ok contracts
  else Except.error (scarbMainArtifactMissingMsg scarbArtifactDirPath packageName)

/-- The per-contract copy loop body of `starknetBuildAction`
(lines 363-403). -/
def processContractEntry (scarbArtifactDirPath artifactDirPath : String)
    (e : ContractEntry) : Proc Unit :=
  -- package_contract (underscore separation)
  let fileName := e.package_name ++ "_" ++ e.contract_name
  -- artifact dir created by us, not the one created by scarb
  let ourArtifactDirPath := pjoin artifactDirPath (fileName ++ ".cairo")
  bindP (emit (Ev.mkdir ourArtifactDirPath)) fun _ =>
  bindP
    (if truthyOptStr e.sierra then
      let scarbSierraPath := pjoin scarbArtifactDirPath (e.sierra.getD "")
      let ourSierraPath := pjoin ourArtifactDirPath (fileName ++ CAIRO1_SIERRA_SUFFIX)
      bindP (emit (Ev.copyFile scarbSierraPath ourSierraPath)) fun _ =>
      let abiOutput := pjoin ourArtifactDirPath (fileName ++ ABI_SUFFIX)
      bindP (emit (Ev.initFile abiOutput)) fun _ =>
      emit (Ev.writeFile abiOutput (jsonStringify e.sierraAbi ++ "\n"))
    else pureP ()) fun _ =>
  if truthyOptStr e.casm then
    let scarbCasmPath := pjoin scarbArtifactDirPath (e.casm.getD "")
    let ourCasmPath := pjoin ourArtifactDirPath (fileName ++ CAIRO1_ASSEMBLY_SUFFIX)
    emit (Ev.copyFile scarbCasmPath ourCasmPath)
  else pureP ()

/-- The contract-entry loop of `starknetBuildAction`. -/
def processContractEntries (scarbArtifactDirPath artifactDirPath : String) :
    List ContractEntry → Proc Unit
  | [] => pureP ()
  | e :: es =>
    bindP (processContractEntry scarbArtifactDirPath artifactDirPath e) fun _ =>
    processContractEntries scarbArtifactDirPath artifactDirPath es

/-- The body of the per-manifest loop of `starknetBuildAction`
(lines 330-404).  Returns this manifest's contribution to `statusCode`.
Only `loadScarbTomlFromPath` runs inside the try/catch; an error thrown by
`loadScarbMainArtifact` is NOT caught and propagates out of the loop. -/
def buildManifest (artifacts root : String) (skipValidate : Bool)
    (item : String × ManifestOracle) : Proc Nat :=
  let packageConfigPath := item.1
  let om := item.2
  match loadScarbTomlFromPath packageConfigPath om.cfg (!skipValidate) with
  | Except.error _ =>
    -- console.error(error); statusCode += 1; continue
    pureP 1
  | Except.ok packageConfig =>
    let packageName := packageConfig.packageName
    -- strip "Scarb.toml" from path end
    let packageDir := dirname packageConfigPath
    let dirSuffix := stripRoot root packageDir
    let artifactDirPath := pjoin artifacts dirSuffix
    bindP (emit (Ev.scarbBuild packageConfigPath artifactDirPath)) fun _ =>
    if om.buildOk = false then
      -- continue only if the scarb build succeeded
      pureP 1
    else
      -- scarb stores artifacts in subdir "dev"
      let scarbArtifactDirPath := pjoin artifactDirPath "dev"
      match loadScarbMainArtifact scarbArtifactDirPath packageName
          om.reportPresent om.contracts with
      | Except.error e => throwP e
      | Except.ok contracts =>
        bindP (processContractEntries scarbArtifactDirPath artifactDirPath contracts) fun _ =>
        pureP 0

/-- The per-manifest loop of `starknetBuildAction`, accumulating
`statusCode`; a thrown (uncaught) error aborts the remaining manifests. -/
def buildManifests (artifacts root : String) (skipValidate : Bool) :
    List (String × ManifestOracle) → Proc Nat
  | [] => pureP 0
  | m :: ms =>
    bindP (buildManifest artifacts root skipValidate m) fun s =>
    bindP (buildManifests artifacts root skipValidate ms) fun s2 =>
    pureP (s + s2)

/-- The aggregate error message of `starknetBuildAction` (lines 406-409). -/
def failedBuildingMsg (n : Nat) : String :=
  "Failed building of " ++ toString n ++ " project" ++ (if n == 1 then "" else "s") ++ "."

/-- `starknetBuildAction` over the discovered package config paths, each
paired with its oracle. -/
def starknetBuildAction (artifacts root : String) (skipValidate : Bool)
    (items : List (String × ManifestOracle)) : Proc Unit :=
  bindP (buildManifests artifacts root skipValidate items) fun statusCode =>
  if statusCode = 0 then pureP () else throwP (failedBuildingMsg statusCode)

/-! ## Network resolution and the devnet supervisor

`setRuntimeNetwork` (task-actions.ts, lines 556-580), `runWithDevnet`
(lines 582-593) and the test/run actions (lines 595-623). -/

/-- A resolved network configuration (only the base URL matters here). -/
structure NetworkConfig where
  /-- the network's base URL -/
  url : String
deriving DecidableEq, Repr

/-- Modelled from the spec: `getNetwork` lives in src/utils.ts, which is not
part of the provided source.  Per the spec (section 4.4) it looks the name up
in the registry of configured networks and fails with an `UnknownNetworkError`
reporting which origin (CLI flag / config field / default) supplied an
unresolvable name. -/
def getNetwork (networkName : String) (networks : List (String × String))
    (origin : String) : Except String NetworkConfig :=
  match networks.find? (fun p => p.1 == networkName) with
  | some p => Except.ok ⟨p.2⟩
  | none =>
    Except.error ("Invalid network provided in " ++ origin ++ ": " ++ networkName ++ ".")

/-- `setRuntimeNetwork` (lines 556-580) as a pure resolution function:
CLI name first, then the configured `starknet.network`, then the built-in
fallback `DEFAULT_STARKNET_NETWORK` (src/constants.ts is not part of the
provided source, so the fallback name is a parameter).  Returns the chosen
name with its config. -/
def setRuntimeNetwork (starknetNetwork configuredNetwork : Option String)
    (fallback : String) (networks : List (String × String)) :
    Except String (String × NetworkConfig) :=
  if truthyOptStr starknetNetwork then
    let n := starknetNetwork.getD ""
    Except.map (fun c => (n, c)) (getNetwork n networks "--starknet-network")
  else if truthyOptStr configuredNetwork then
    let n := configuredNetwork.getD ""
    Except.map (fun c => (n, c)) (getNetwork n networks "starknet.network in hardhat.config")
  else
    Except.map (fun c => (fallback, c)) (getNetwork fallback networks "default settings")

/-- The name of the local/integrated devnet network. -/
def INTEGRATED_DEVNET : String := "integrated-devnet"

/-- Modelled from the spec: `isStarknetDevnet` lives in src/utils.ts, which
is not part of the provided source.  Per the spec (section 4.5) it
recognises exactly the specific "local/integrated" network identity. -/
def isStarknetDevnet (networkName : String) : Bool :=
  networkName == INTEGRATED_DEVNET

/-- `devnet.start()`: blocks until ready, throws a `DevnetStartError` on
timeout or early exit (`startOk` is the oracle for that outcome). -/
def devnetStartP (startOk : Bool) : Proc Unit :=
  ([Ev.devnetStart], if startOk then Except.ok () else Except.error "DevnetStartError")

/-- `devnet.stop()`. -/
def devnetStopP : Proc Unit := ([Ev.devnetStop], Except.ok ())

/-- `runWithDevnet` (lines 582-593): on a non-devnet network the unit of
work is invoked directly; on the devnet network the source runs
`await devnet.start(); await fn(); devnet.stop();` with no try/finally. -/
def runWithDevnet (networkName : String) (startOk : Bool) (fn : Proc Unit) : Proc Unit :=
  if !isStarknetDevnet networkName then
    fn
  else
    bindP (devnetStartP startOk) fun _ =>
    bindP fn fun _ =>
    devnetStopP

/-- `setRuntimeNetwork` as a step of the test/run actions: emits the
resolution event and yields the resolved name (or throws). -/
def setRuntimeNetworkP (starknetNetwork configuredNetwork : Option String)
    (fallback : String) (networks : List (String × String)) : Proc String :=
  ([Ev.resolveNetwork],
    match setRuntimeNetwork starknetNetwork configuredNetwork fallback networks with
    | Except.ok (n, _) => Except.ok n
    | Except.error e => Except.error e)

/-- `new Recompiler(hre).handleCache()` as a step of the test/run actions. -/
def handleCacheP : Proc Unit := ([Ev.handleCache], Except.ok ())

/-- `starknetTestAction` (lines 595-606). -/
def starknetTestAction (starknetNetwork configuredNetwork : Option String)
    (fallback : String) (networks : List (String × String)) (startOk : Bool)
    (runSuperFn : Proc Unit) : Proc Unit :=
  bindP (setRuntimeNetworkP starknetNetwork configuredNetwork fallback networks) fun nm =>
  bindP handleCacheP fun _ =>
  runWithDevnet nm startOk runSuperFn

/-- The error message thrown by `starknetRunAction` when the
`--starknet-network` CLI argument is supplied (lines 613-615). -/
def runActionNetworkErrorMsg : String :=
  "Using \x22--starknet-network\x22 with \x22hardhat run\x22 currently does not have effect.\n"
    ++ "Use the \x22network\x22 property of the \x22starknet\x22 object in your hardhat config file."

/-- `starknetRunAction` (lines 608-623): identical to the test action except
that a supplied `--starknet-network` argument makes it throw first. -/
def starknetRunAction (starknetNetwork configuredNetwork : Option String)
    (fallback : String) (networks : List (String × String)) (startOk : Bool)
    (runSuperFn : Proc Unit) : Proc Unit :=
  if truthyOptStr starknetNetwork then
    throwP runActionNetworkErrorMsg
  else
    bindP (setRuntimeNetworkP starknetNetwork configuredNetwork fallback networks) fun nm =>
    bindP handleCacheP fun _ =>
    runWithDevnet nm startOk runSuperFn

/-! ## Trace characterisations of the compile actions -/

/-- The expected per-file event trace of the two-stage pipeline. -/
def cairo1FileTrace (artifacts root : String) (o : String → Cairo1Outcome)
    (file : String) : List Ev :=
  if (o file).sierraOk = false then
    [Ev.mkdir (cairoArtifactDir artifacts root file),
     Ev.initFile (cairo1SierraPath artifacts root file),
     Ev.compileSierra file (cairo1SierraPath artifacts root file)]
  else
    [Ev.mkdir (cairoArtifactDir artifacts root file),
     Ev.initFile (cairo1SierraPath artifacts root file),
     Ev.compileSierra file (cairo1SierraPath artifacts root file),
     Ev.initFile (cairo1AbiPath artifacts root file),
     Ev.writeFile (cairo1AbiPath artifacts root file) (jsonStringify (o file).abi ++ "\n"),
     Ev.initFile (cairo1CasmPath artifacts root file),
     Ev.compileCasm (cairo1SierraPath artifacts root file) (cairo1CasmPath artifacts root file),
     Ev.updateCache file]

/-- A file's contribution to `statusCode` in the two-stage pipeline:
1 when its sierra stage fails, otherwise 1 when its casm stage fails,
otherwise 0. -/
def cairo1FileStatus (oc : Cairo1Outcome) : Nat :=
  if oc.sierraOk = false then 1 else if oc.casmOk then 0 else 1

theorem compileCairo1File_eq (artifacts root : String) (o : String → Cairo1Outcome)
    (file : String) :
    compileCairo1File artifacts root o file
      = (cairo1FileTrace artifacts root o file, Except.ok (cairo1FileStatus (o file))) := by
  cases h : (o file).sierraOk <;>
    simp [compileCairo1File, cairo1FileTrace, cairo1FileStatus, bindP, emit, pureP, h]

/-- The expected trace of one sources path's file loop. -/
def cairo1FilesTrace (artifacts root : String) (o : String → Cairo1Outcome) :
    List String → List Ev
  | [] => []
  | f :: fs => cairo1FileTrace artifacts root o f ++ cairo1FilesTrace artifacts root o fs

/-- The number of failed files in a list (the accumulated `statusCode`). -/
def cairo1FilesStatus (o : String → Cairo1Outcome) : List String → Nat
  | [] => 0
  | f :: fs => cairo1FileStatus (o f) + cairo1FilesStatus o fs

theorem compileCairo1Files_eq (artifacts root : String) (o : String → Cairo1Outcome)
    (files : List String) :
    compileCairo1Files artifacts root o files
      = (cairo1FilesTrace artifacts root o files, Except.ok (cairo1FilesStatus o files)) := by
  induction files with
  | nil => rfl
  | cons f fs ih =>
    simp [compileCairo1Files, compileCairo1File_eq, cairo1FilesTrace, cairo1FilesStatus,
      ih, bindP, pureP]

/-- The expected trace of the whole two-stage action: per-path file traces,
each followed by a cache flush. -/
def cairo1DirsTrace (artifacts root : String) (o : String → Cairo1Outcome) :
    List (List String) → List Ev
  | [] => []
  | d :: ds =>
    (cairo1FilesTrace artifacts root o d ++ [Ev.saveCache])
      ++ cairo1DirsTrace artifacts root o ds

/-- The total number of failed files over all sources paths. -/
def cairo1DirsStatus (o : String → Cairo1Outcome) : List (List String) → Nat
  | [] => 0
  | d :: ds => cairo1FilesStatus o d + cairo1DirsStatus o ds

theorem compileCairo1Dirs_eq (artifacts root : String) (o : String → Cairo1Outcome)
    (dirs : List (List String)) :
    compileCairo1Dirs artifacts root o dirs
      = (cairo1DirsTrace artifacts root o dirs, Except.ok (cairo1DirsStatus o dirs)) := by
  induction dirs with
  | nil => rfl
  | cons d ds ih =>
    simp [compileCairo1Dirs, compileCairo1Dir, compileCairo1Files_eq, cairo1DirsTrace,
      cairo1DirsStatus, ih, bindP, emit, pureP]

/-- The expected per-file event trace of the deprecated pipeline; note it
always ends in `updateCache`, whatever the compiler's exit status. -/
def deprecatedFileTrace (artifacts root : String) (file : String) : List Ev :=
  [Ev.mkdir (cairoArtifactDir artifacts root file),
   Ev.initFile (deprecatedOutputPath artifacts root file),
   Ev.initFile (deprecatedAbiPath artifacts root file),
   Ev.deprecatedCompile file (deprecatedOutputPath artifacts root file)
     (deprecatedAbiPath artifacts root file),
   Ev.updateCache file]

theorem compileDeprecatedFile_eq (artifacts root : String) (dep : String → Bool)
    (file : String) :
    compileDeprecatedFile artifacts root dep file
      = (deprecatedFileTrace artifacts root file,
         Except.ok (if dep file then 0 else 1)) := by
  simp [compileDeprecatedFile, deprecatedFileTrace, bindP, emit, pureP]

/-- The expected trace of one sources path's file loop in the deprecated
pipeline. -/
def deprecatedFilesTrace (artifacts root : String) : List String → List Ev
  | [] => []
  | f :: fs => deprecatedFileTrace artifacts root f ++ deprecatedFilesTrace artifacts root fs

/-- The number of failed files in a list in the deprecated pipeline. -/
def deprecatedFilesStatus (dep : String → Bool) : List String → Nat
  | [] => 0
  | f :: fs => (if dep f then 0 else 1) + deprecatedFilesStatus dep fs

theorem compileDeprecatedFiles_eq (artifacts root : String) (dep : String → Bool)
    (files : List String) :
    compileDeprecatedFiles artifacts root dep files
      = (deprecatedFilesTrace artifacts root files,
         Except.ok (deprecatedFilesStatus dep files)) := by
  induction files with
  | nil => rfl
  | cons f fs ih =>
    simp [compileDeprecatedFiles, compileDeprecatedFile_eq, deprecatedFilesTrace,
      deprecatedFilesStatus, ih, bindP, pureP]

/-- The expected trace of the whole deprecated action. -/
def deprecatedDirsTrace (artifacts root : String) : List (List String) → List Ev
  | [] => []
  | d :: ds =>
    (deprecatedFilesTrace artifacts root d ++ [Ev.saveCache])
      ++ deprecatedDirsTrace artifacts root ds

/-- The total number of failed files over all sources paths in the
deprecated pipeline. -/
def deprecatedDirsStatus (dep : String → Bool) : List (List String) → Nat
  | [] => 0
  | d :: ds => deprecatedFilesStatus dep d + deprecatedDirsStatus dep ds

theorem compileDeprecatedDirs_eq (artifacts root : String) (dep : String → Bool)
    (dirs : List (List String)) :
    compileDeprecatedDirs artifacts root dep dirs
      = (deprecatedDirsTrace artifacts root dirs,
         Except.ok (deprecatedDirsStatus dep dirs)) := by
  induction dirs with
  | nil => rfl
  | cons d ds ih =>
    simp [compileDeprecatedDirs, compileDeprecatedDir, compileDeprecatedFiles_eq,
      deprecatedDirsTrace, deprecatedDirsStatus, ih, bindP, emit, pureP]

/-! ## String facts used to separate artifact paths -/

theorem string_append_right_inj (s : String) {a b : String} (h : s ++ a = s ++ b) :
    a = b := by
  have hd : (s ++ a).data = (s ++ b).data := by rw [h]
  rw [String.data_append, String.data_append] at hd
  have hab := List.append_cancel_left hd
  cases a; cases b; exact congrArg String.mk hab

theorem startsWithSlash_append (f x : String) :
    startsWithSlash (f ++ x)
      = if f.data.isEmpty then startsWithSlash x else startsWithSlash f := by
  cases hf : f.data with
  | nil => simp [startsWithSlash, String.data_append, hf]
  | cons c cs => simp [startsWithSlash, String.data_append, hf]

theorem pjoin_inj_right (d : String) {b c : String}
    (hsw : startsWithSlash b = startsWithSlash c) (h : pjoin d b = pjoin d c) :
    b = c := by
  unfold pjoin at h
  rw [hsw] at h
  cases hc : startsWithSlash c <;> rw [hc] at h
  · exact string_append_right_inj (d ++ "/") h
  · exact string_append_right_inj d h

theorem pjoin_suffix_ne (d f : String) {x y : String} (hxy : x ≠ y)
    (hx : startsWithSlash x = false) (hy : startsWithSlash y = false) :
    pjoin d (f ++ x) ≠ pjoin d (f ++ y) := by
  intro h
  apply hxy
  have hsw : startsWithSlash (f ++ x) = startsWithSlash (f ++ y) := by
    rw [startsWithSlash_append, startsWithSlash_append, hx, hy]
  exact string_append_right_inj f (pjoin_inj_right d hsw h)

theorem cairo1SierraPath_ne_abiPath (artifacts root file : String) :
    cairo1SierraPath artifacts root file ≠ cairo1AbiPath artifacts root file := by
  apply pjoin_suffix_ne
  · decide
  · decide
  · decide

theorem cairo1SierraPath_ne_casmPath (artifacts root file : String) :
    cairo1SierraPath artifacts root file ≠ cairo1CasmPath artifacts root file := by
  apply pjoin_suffix_ne
  · decide
  · decide
  · decide

/-! ## Claim C4 -/

/-- Claim C4: in both compile actions, every file of the batch is processed
(the action's trace is exactly the concatenation of every file's own
per-file trace, ended per sources path by a cache flush — a failing file
never aborts its siblings), each file contributes 1 to the aggregate count
exactly when its compilation failed, and after the batch the action throws
exactly one error reporting the failed count K when K is non-zero and
returns normally when K = 0. -/
theorem compile_batch_aggregate_failures (artifacts root : String)
    (o : String → Cairo1Outcome) (dep : String → Bool) (dirs : List (List String)) :
    (starknetCompileCairo1Action artifacts root o dirs
       = (cairo1DirsTrace artifacts root o dirs,
          if cairo1DirsStatus o dirs = 0 then Except.ok ()
          else Except.error (failedCompilationMsg (cairo1DirsStatus o dirs))))
    ∧ (starknetDeprecatedCompileAction artifacts root dep dirs
       = (deprecatedDirsTrace artifacts root dirs,
          if deprecatedDirsStatus dep dirs = 0 then Except.ok ()
          else Except.error (failedCompilationMsg (deprecatedDirsStatus dep dirs))))
    ∧ (∀ f, cairo1FileStatus (o f) = if (o f).sierraOk && (o f).casmOk then 0 else 1) := by
  refine ⟨?_, ?_, ?_⟩
  · rw [starknetCompileCairo1Action, compileCairo1Dirs_eq]
    by_cases h : cairo1DirsStatus o dirs = 0 <;> simp [bindP, pureP, throwP, h]
  · rw [starknetDeprecatedCompileAction, compileDeprecatedDirs_eq]
    by_cases h : deprecatedDirsStatus dep dirs = 0 <;> simp [bindP, pureP, throwP, h]
  · intro f
    cases hs : (o f).sierraOk <;> cases hc : (o f).casmOk <;>
      simp [cairo1FileStatus, hs, hc]

/-! ## Claim C2 -/

/-- Claim C2 counterexample: in the deprecated compile action a file whose
compilation invocation fails (exit status 1) nevertheless gets a cache
entry written: `updateCache` appears in the action's trace.  The oracle
`fun x => false` makes the single invocation fail. -/
theorem updateCache_after_failure_cex :
    Ev.updateCache "/proj/contracts/bad.cairo"
      ∈ (starknetDeprecatedCompileAction "/proj/starknet-artifacts" "/proj"
          (fun _ => false) [["/proj/contracts/bad.cairo"]]).1 := by decide

/-- Claim C2 amended: in the deprecated compile action, `updateCache` is
invoked for every processed file, whatever the compilation exit status; in
the two-stage action, `updateCache` is invoked for a file exactly when its
stage-1 (sierra) invocation succeeded — in particular it is still invoked
when the stage-2 (casm) invocation fails. -/
theorem updateCache_invocation_characterisation (artifacts root : String)
    (o : String → Cairo1Outcome) (dep : String → Bool) (f : String) :
    (Ev.updateCache f ∈ (compileDeprecatedFile artifacts root dep f).1)
    ∧ (Ev.updateCache f ∈ (compileCairo1File artifacts root o f).1
        ↔ (o f).sierraOk = true) := by
  constructor
  · rw [compileDeprecatedFile_eq]
    simp [deprecatedFileTrace]
  · rw [compileCairo1File_eq]
    cases h : (o f).sierraOk <;> simp [cairo1FileTrace, h]

/-! ## Claim C6 -/

/-- Whether event `e` creates or updates the file at path `p`. -/
def writesTo (e : Ev) (p : String) : Bool :=
  match e with
  | Ev.initFile q => q == p
  | Ev.writeFile q _ => q == p
  | Ev.copyFile _ q => q == p
  | Ev.compileSierra _ q => q == p
  | Ev.compileCasm _ q => q == p
  | Ev.deprecatedCompile _ q r => q == p || r == p
  | _ => false

/-- Claim C6: if the stage-1 (source-to-sierra) invocation fails for a file,
no event of that file's processing creates or updates its assembly (casm)
file or its standalone ABI file — stage 2 and ABI extraction are skipped
entirely. -/
theorem stage1_failure_touches_no_abi_or_casm (artifacts root : String)
    (o : String → Cairo1Outcome) (file : String)
    (h : (o file).sierraOk = false) :
    ((compileCairo1File artifacts root o file).1.all fun e =>
      !(writesTo e (cairo1AbiPath artifacts root file))
        && !(writesTo e (cairo1CasmPath artifacts root file))) = true := by
  rw [compileCairo1File_eq]
  have hsa := cairo1SierraPath_ne_abiPath artifacts root file
  have hsc := cairo1SierraPath_ne_casmPath artifacts root file
  simp [cairo1FileTrace, h, writesTo, beq_eq_false_iff_ne.mpr hsa,
    beq_eq_false_iff_ne.mpr hsc]

/-- Claim C6 witness: a concrete file whose sierra stage fails; its
processing touches neither the ABI path nor the casm path. -/
theorem stage1_failure_touches_no_abi_or_casm_witness :
    ((compileCairo1File "/proj/starknet-artifacts" "/proj"
        (fun _ => ⟨false, Json.null, true⟩) "/proj/contracts/bad.cairo").1.all fun e =>
      !(writesTo e (cairo1AbiPath "/proj/starknet-artifacts" "/proj" "/proj/contracts/bad.cairo"))
        && !(writesTo e (cairo1CasmPath "/proj/starknet-artifacts" "/proj" "/proj/contracts/bad.cairo"))) = true :=
  stage1_failure_touches_no_abi_or_casm "/proj/starknet-artifacts" "/proj"
    (fun _ => ⟨false, Json.null, true⟩) "/proj/contracts/bad.cairo" (by decide)

/-! ## Claim C9 -/

/-- A small concrete ABI value (an array holding one object), of the shape
the compilers embed in the sierra output. -/
def abiSample : Json :=
  Json.arr [Json.obj [("type", Json.str "function"), ("name", Json.str "transfer")]]

/-- Claim C9 counterexample: the ABI file content the two-stage action
writes is `JSON.stringify(abi) + "\n"`, the compact single-line
serialisation — not the pretty-printed serialisation the claim describes.
At the concrete ABI `abiSample` the written content differs from the
pretty-printed form. -/
theorem abi_written_not_pretty_cex :
    (Ev.writeFile
        (cairo1AbiPath "/proj/starknet-artifacts" "/proj" "/proj/contracts/token.cairo")
        (jsonStringify abiSample ++ "\n")
      ∈ (compileCairo1File "/proj/starknet-artifacts" "/proj"
          (fun _ => ⟨true, abiSample, true⟩) "/proj/contracts/token.cairo").1)
    ∧ jsonStringify abiSample ++ "\n" ≠ jsonPretty 0 abiSample ++ "\n" := by
  constructor
  · decide
  · decide

/-- Claim C9 amended: after a successful stage-1 compilation (two-stage
action) and after copying the sierra output (manifest-based action), the ABI
section read from the intermediate-representation file is written as a
standalone file in compact (single-line `JSON.stringify`) form — not
pretty-printed — with a trailing newline. -/
theorem abi_written_compact_with_newline (artifacts root : String)
    (o : String → Cairo1Outcome) (f : String) (h : (o f).sierraOk = true)
    (scarbDir artifactDir : String) (e : ContractEntry)
    (he : truthyOptStr e.sierra = true) :
    (Ev.writeFile (cairo1AbiPath artifacts root f) (jsonStringify (o f).abi ++ "\n")
       ∈ (compileCairo1File artifacts root o f).1)
    ∧ (Ev.writeFile
         (pjoin (pjoin artifactDir (e.package_name ++ "_" ++ e.contract_name ++ ".cairo"))
           (e.package_name ++ "_" ++ e.contract_name ++ ABI_SUFFIX))
         (jsonStringify e.sierraAbi ++ "\n")
       ∈ (processContractEntry scarbDir artifactDir e).1) := by
  constructor
  · rw [compileCairo1File_eq]
    simp [cairo1FileTrace, h]
  · cases hc : truthyOptStr e.casm <;>
      simp [processContractEntry, bindP, emit, pureP, he, hc]

/-- Claim C9 witness: concrete instantiation of the amended claim. -/
theorem abi_written_compact_with_newline_witness :
    (Ev.writeFile
        (cairo1AbiPath "/proj/starknet-artifacts" "/proj" "/proj/contracts/ok.cairo")
        (jsonStringify ((fun _ : String => Cairo1Outcome.mk true Json.null true) "/proj/contracts/ok.cairo").abi ++ "\n")
       ∈ (compileCairo1File "/proj/starknet-artifacts" "/proj"
            (fun _ => Cairo1Outcome.mk true Json.null true) "/proj/contracts/ok.cairo").1)
    ∧ (Ev.writeFile
         (pjoin (pjoin "/proj/starknet-artifacts/p1" ("pkg" ++ "_" ++ "Token" ++ ".cairo"))
           ("pkg" ++ "_" ++ "Token" ++ ABI_SUFFIX))
         (jsonStringify (ContractEntry.mk "pkg" "Token" (some "pkg_Token.sierra.json")
            (some "pkg_Token.casm") Json.null).sierraAbi ++ "\n")
       ∈ (processContractEntry "/proj/starknet-artifacts/p1/dev" "/proj/starknet-artifacts/p1"
            (ContractEntry.mk "pkg" "Token" (some "pkg_Token.sierra.json")
              (some "pkg_Token.casm") Json.null)).1) :=
  abi_written_compact_with_newline "/proj/starknet-artifacts" "/proj"
    (fun _ => Cairo1Outcome.mk true Json.null true) "/proj/contracts/ok.cairo" (by decide)
    "/proj/starknet-artifacts/p1/dev" "/proj/starknet-artifacts/p1"
    (ContractEntry.mk "pkg" "Token" (some "pkg_Token.sierra.json")
      (some "pkg_Token.casm") Json.null) (by decide)

/-! ## Claim C5 -/

/-- Claim C5: with validation enabled (`--skip-validate` not passed), a
manifest whose target-config list has no unconditional entry and no entry
named like the package, or whose first applicable entry does not set both
`sierra` and `casm`, is rejected with a `ScarbConfigValidationError`; the
rejected manifest's processing emits no event at all (in particular the
external build tool is never invoked for it) and contributes exactly one
batch failure, and the remaining manifests of the batch are processed
exactly as if the rejected one were absent. -/
theorem invalid_manifest_rejected_before_build (artifacts root : String)
    (p : String) (om : ManifestOracle) (rest : List (String × ManifestOracle))
    (hinvalid : scarbConfigCandidates om.cfg = []
      ∨ ∃ t, (scarbConfigCandidates om.cfg).head? = some t ∧ (t.sierra && t.casm) = false) :
    (loadScarbTomlFromPath p om.cfg true
        = Except.error (scarbValidationMsg p nameErrorMsg)
      ∨ loadScarbTomlFromPath p om.cfg true
        = Except.error (scarbValidationMsg p sierraCasmErrorMsg))
    ∧ buildManifest artifacts root false (p, om) = ([], Except.ok 1)
    ∧ buildManifests artifacts root false ((p, om) :: rest)
        = ((buildManifests artifacts root false rest).1,
           Except.map (fun s => 1 + s) (buildManifests artifacts root false rest).2) := by
  have hload : loadScarbTomlFromPath p om.cfg true
        = Except.error (scarbValidationMsg p nameErrorMsg)
      ∨ loadScarbTomlFromPath p om.cfg true
        = Except.error (scarbValidationMsg p sierraCasmErrorMsg) := by
    rcases hinvalid with hempty | ⟨t, hhead, hflags⟩
    · left
      simp [loadScarbTomlFromPath, hempty]
    · right
      have hne : ((scarbConfigCandidates om.cfg).length == 0) = false := by
        cases hc : scarbConfigCandidates om.cfg with
        | nil => rw [hc] at hhead; simp at hhead
        | cons a as => simp [hc]
      have hflag : (!t.sierra || !t.casm) = true := by
        cases hs : t.sierra <;> cases hcm : t.casm <;> simp_all
      simp [loadScarbTomlFromPath, hne, hhead, hflag]
  have hbm : buildManifest artifacts root false (p, om) = ([], Except.ok 1) := by
    rcases hload with h | h <;> simp [buildManifest, h, pureP]
  refine ⟨hload, hbm, ?_⟩
  rw [buildManifests, hbm]
  rcases hr : buildManifests artifacts root false rest with ⟨tr, r⟩
  cases r <;> simp [bindP, pureP, Except.map]

/-- Claim C5 witness: a manifest whose only target config is named unlike
the package is rejected without any build-tool invocation, and an empty
remainder batch proceeds normally. -/
theorem invalid_manifest_rejected_before_build_witness :
    (loadScarbTomlFromPath "/proj/p1/Scarb.toml"
        (ManifestOracle.mk (ScarbConfig.mk "pkg" [TargetConfig.mk (some "other") true true])
          true true []).cfg true
        = Except.error (scarbValidationMsg "/proj/p1/Scarb.toml" nameErrorMsg)
      ∨ loadScarbTomlFromPath "/proj/p1/Scarb.toml"
        (ManifestOracle.mk (ScarbConfig.mk "pkg" [TargetConfig.mk (some "other") true true])
          true true []).cfg true
        = Except.error (scarbValidationMsg "/proj/p1/Scarb.toml" sierraCasmErrorMsg))
    ∧ buildManifest "/proj/starknet-artifacts" "/proj" false
        ("/proj/p1/Scarb.toml",
          ManifestOracle.mk (ScarbConfig.mk "pkg" [TargetConfig.mk (some "other") true true])
            true true [])
        = ([], Except.ok 1)
    ∧ buildManifests "/proj/starknet-artifacts" "/proj" false
        [("/proj/p1/Scarb.toml",
          ManifestOracle.mk (ScarbConfig.mk "pkg" [TargetConfig.mk (some "other") true true])
            true true [])]
        = ((buildManifests "/proj/starknet-artifacts" "/proj" false []).1,
           Except.map (fun s => 1 + s)
             (buildManifests "/proj/starknet-artifacts" "/proj" false []).2) :=
  invalid_manifest_rejected_before_build "/proj/starknet-artifacts" "/proj"
    "/proj/p1/Scarb.toml"
    (ManifestOracle.mk (ScarbConfig.mk "pkg" [TargetConfig.mk (some "other") true true])
      true true [])
    [] (Or.inl (by decide))

/-! ## Claim C3 -/

/-- Claim C3 counterexample: two manifests, the first one building
successfully but missing its build-report file.  The action does fail with
the descriptive error naming the expected path
(`/proj/starknet-artifacts/p1/dev/pkg1.starknet_artifacts.json`), but the
failure is NOT contained to that manifest's batch entry: the thrown error
(raised outside the per-manifest try/catch) aborts the loop, so the second
manifest is never processed — its build-tool invocation never appears in
the trace. -/
theorem build_report_missing_aborts_cex :
    (starknetBuildAction "/proj/starknet-artifacts" "/proj" true
        [("/proj/p1/Scarb.toml", ManifestOracle.mk (ScarbConfig.mk "pkg1" []) true false []),
         ("/proj/p2/Scarb.toml", ManifestOracle.mk (ScarbConfig.mk "pkg2" []) true true [])]
      = ([Ev.scarbBuild "/proj/p1/Scarb.toml" "/proj/starknet-artifacts/p1"],
         Except.error
           "Error in building pkg1, could not find /proj/starknet-artifacts/p1/dev/pkg1.starknet_artifacts.json"))
    ∧ Ev.scarbBuild "/proj/p2/Scarb.toml" "/proj/starknet-artifacts/p2"
        ∉ (starknetBuildAction "/proj/starknet-artifacts" "/proj" true
            [("/proj/p1/Scarb.toml", ManifestOracle.mk (ScarbConfig.mk "pkg1" []) true false []),
             ("/proj/p2/Scarb.toml", ManifestOracle.mk (ScarbConfig.mk "pkg2" []) true true [])]).1 := by
  constructor
  · decide
  · decide

/-- Claim C3 amended: in the manifest-based build action, if the build tool
succeeds for a manifest but the expected build-report file
`<packageName>.starknet_artifacts.json` is absent, the action fails with a
descriptive error naming the expected path; this error is raised outside
the per-manifest error handling, so it aborts the whole batch: manifests
after the failing one are not processed and no aggregate failure count is
reported. -/
theorem build_report_missing_aborts_batch (artifacts root : String)
    (skipValidate : Bool) (p : String) (om : ManifestOracle)
    (rest : List (String × ManifestOracle))
    (hload : loadScarbTomlFromPath p om.cfg (!skipValidate) = Except.ok om.cfg)
    (hbuild : om.buildOk = true) (hreport : om.reportPresent = false) :
    starknetBuildAction artifacts root skipValidate ((p, om) :: rest)
      = ([Ev.scarbBuild p (pjoin artifacts (stripRoot root (dirname p)))],
         Except.error (scarbMainArtifactMissingMsg
           (pjoin (pjoin artifacts (stripRoot root (dirname p))) "dev")
           om.cfg.packageName)) := by
  have hbm : buildManifest artifacts root skipValidate (p, om)
      = ([Ev.scarbBuild p (pjoin artifacts (stripRoot root (dirname p)))],
         Except.error (scarbMainArtifactMissingMsg
           (pjoin (pjoin artifacts (stripRoot root (dirname p))) "dev")
           om.cfg.packageName)) := by
    simp [buildManifest, hload, hbuild, hreport, loadScarbMainArtifact, throwP,
      bindP, emit]
  rw [starknetBuildAction, buildManifests, hbm]
  rfl

/-- Claim C3 witness: concrete instantiation of the amended claim (one
failing manifest, skip-validate enabled, empty remainder). -/
theorem build_report_missing_aborts_batch_witness :
    starknetBuildAction "/proj/starknet-artifacts" "/proj" true
        [("/proj/alpha/Scarb.toml", ManifestOracle.mk (ScarbConfig.mk "alpha" []) true false [])]
      = ([Ev.scarbBuild "/proj/alpha/Scarb.toml"
            (pjoin "/proj/starknet-artifacts" (stripRoot "/proj" (dirname "/proj/alpha/Scarb.toml")))],
         Except.error (scarbMainArtifactMissingMsg
           (pjoin (pjoin "/proj/starknet-artifacts"
             (stripRoot "/proj" (dirname "/proj/alpha/Scarb.toml"))) "dev")
           (ManifestOracle.mk (ScarbConfig.mk "alpha" []) true false []).cfg.packageName)) :=
  build_report_missing_aborts_batch "/proj/starknet-artifacts" "/proj" true
    "/proj/alpha/Scarb.toml" (ManifestOracle.mk (ScarbConfig.mk "alpha" []) true false [])
    [] (by decide) (by decide) (by decide)

/-! ## Claim C1 -/

/-- Whether an `Except` result is a normal completion. -/
def exceptIsOk {ε α : Type} : Except ε α → Bool
  | Except.ok _ => true
  | Except.error _ => false

/-- Claim C1 counterexample: on the devnet network, with `devnet.start()`
succeeding, a unit of work that throws.  `runWithDevnet` runs
`await devnet.start(); await fn(); devnet.stop();` with no try/finally, so
`devnet.stop()` is never invoked — it appears zero times in the trace, not
exactly once — and the exception propagates without any stop. -/
theorem devnet_stop_skipped_on_throw_cex :
    ((runWithDevnet "integrated-devnet" true
        ([Ev.runFn], Except.error "user script error")).1.count Ev.devnetStop = 0)
    ∧ ((runWithDevnet "integrated-devnet" true
        ([Ev.runFn], Except.error "user script error")).2
          = Except.error "user script error") := by
  constructor
  · decide
  · decide

/-- Claim C1 amended: for a supervised action on the local devnet network,
`devnet.stop()` executes exactly once if and only if `devnet.start()`
succeeded and the unit of work completed without throwing; when the unit of
work throws, `stop()` is not invoked at all and the exception propagates,
and when `start()` throws the unit of work never runs and its error
propagates.  The first conjunct characterises the whole trace: on a start
failure it is exactly `[devnetStart]`, so none of the unit of work's events
(`ftr`) occur; on a throwing unit of work it is exactly
`devnetStart :: ftr`, with no `devnetStop`. -/
theorem runWithDevnet_stop_only_on_success (networkName : String) (startOk : Bool)
    (ftr : List Ev) (fres : Except String Unit)
    (hdev : isStarknetDevnet networkName = true)
    (hstop : Ev.devnetStop ∉ ftr) :
    ((runWithDevnet networkName startOk (ftr, fres)).1
       = if startOk then
           Ev.devnetStart :: (ftr ++ (if exceptIsOk fres then [Ev.devnetStop] else []))
         else [Ev.devnetStart])
    ∧ ((runWithDevnet networkName startOk (ftr, fres)).1.count Ev.devnetStop
       = if startOk && exceptIsOk fres then 1 else 0)
    ∧ ((runWithDevnet networkName startOk (ftr, fres)).2
       = if startOk then fres else Except.error "DevnetStartError") := by
  have hftr : ftr.count Ev.devnetStop = 0 := List.count_eq_zero.mpr hstop
  cases startOk with
  | false =>
    simp [runWithDevnet, hdev, devnetStartP, devnetStopP, bindP, exceptIsOk]
  | true =>
    cases fres with
    | error e =>
      simp [runWithDevnet, hdev, devnetStartP, devnetStopP, bindP, exceptIsOk,
        List.count_append, List.count_cons, hftr]
    | ok u =>
      simp [runWithDevnet, hdev, devnetStartP, devnetStopP, bindP, exceptIsOk,
        List.count_append, List.count_cons, hftr]

/-- Claim C1 witness: concrete instantiation of the amended claim with a
throwing unit of work — the trace is exactly `[devnetStart, runFn]` and the
stop count evaluates to zero. -/
theorem runWithDevnet_stop_only_on_success_witness :
    ((runWithDevnet "integrated-devnet" true ([Ev.runFn], Except.error "boom")).1
       = if true then
           Ev.devnetStart
             :: ([Ev.runFn] ++ (if exceptIsOk (Except.error "boom" : Except String Unit)
                  then [Ev.devnetStop] else []))
         else [Ev.devnetStart])
    ∧ ((runWithDevnet "integrated-devnet" true
        ([Ev.runFn], Except.error "boom")).1.count Ev.devnetStop
       = if true && exceptIsOk (Except.error "boom" : Except String Unit) then 1 else 0)
    ∧ ((runWithDevnet "integrated-devnet" true ([Ev.runFn], Except.error "boom")).2
       = if true then (Except.error "boom" : Except String Unit)
         else Except.error "DevnetStartError") :=
  runWithDevnet_stop_only_on_success "integrated-devnet" true [Ev.runFn]
    (Except.error "boom") (by decide) (by decide)

/-! ## Claim C8 -/

/-- Claim C8: when the resolved network is not the local devnet identity,
`runWithDevnet` is a no-op passthrough — it equals the unit of work itself,
so no devnet process is created, started or stopped (the devnet lifecycle
events appear in the result exactly as often as the unit of work itself
emits them, i.e. never for a real unit of work). -/
theorem runWithDevnet_passthrough (networkName : String) (startOk : Bool)
    (fn : Proc Unit) (h : isStarknetDevnet networkName = false) :
    runWithDevnet networkName startOk fn = fn
    ∧ (runWithDevnet networkName startOk fn).1.count Ev.devnetStart
        = fn.1.count Ev.devnetStart
    ∧ (runWithDevnet networkName startOk fn).1.count Ev.devnetStop
        = fn.1.count Ev.devnetStop := by
  have he : runWithDevnet networkName startOk fn = fn := by
    simp [runWithDevnet, h]
  exact ⟨he, by rw [he], by rw [he]⟩

/-- Claim C8 witness: on the alpha testnet the supervisor invokes the unit
of work directly. -/
theorem runWithDevnet_passthrough_witness :
    runWithDevnet "alpha-goerli" true ([Ev.runFn], Except.ok ())
        = ([Ev.runFn], Except.ok ())
    ∧ (runWithDevnet "alpha-goerli" true ([Ev.runFn], Except.ok ())).1.count Ev.devnetStart
        = ([Ev.runFn], (Except.ok () : Except String Unit)).1.count Ev.devnetStart
    ∧ (runWithDevnet "alpha-goerli" true ([Ev.runFn], Except.ok ())).1.count Ev.devnetStop
        = ([Ev.runFn], (Except.ok () : Except String Unit)).1.count Ev.devnetStop :=
  runWithDevnet_passthrough "alpha-goerli" true ([Ev.runFn], Except.ok ()) (by decide)

/-! ## Claim C7 -/

/-- Claim C7: network resolution precedence.  (i) When the CLI-level
`--starknet-network` name is supplied (truthy), it is resolved with the
CLI origin, whatever the configured name `cfgN` is; (ii) when only the
project-configured name is supplied, it is resolved with the config-field
origin; (iii) when neither is supplied, the built-in fallback is resolved
with the default-settings origin; and (iv) a name with no registry entry
makes `getNetwork` fail with an error message naming the origin that
supplied the name. -/
theorem network_resolution_precedence (networks : List (String × String))
    (e c fb n origin : String) (cfgN : Option String)
    (he : sIsEmpty e = false) (hc : sIsEmpty c = false)
    (hn : networks.find? (fun q => q.1 == n) = none) :
    (setRuntimeNetwork (some e) cfgN fb networks
       = Except.map (fun cfg => (e, cfg)) (getNetwork e networks "--starknet-network"))
    ∧ (setRuntimeNetwork none (some c) fb networks
       = Except.map (fun cfg => (c, cfg))
           (getNetwork c networks "starknet.network in hardhat.config"))
    ∧ (setRuntimeNetwork none none fb networks
       = Except.map (fun cfg => (fb, cfg)) (getNetwork fb networks "default settings"))
    ∧ (getNetwork n networks origin
       = Except.error ("Invalid network provided in " ++ origin ++ ": " ++ n ++ ".")) := by
  refine ⟨?_, ?_, ?_, ?_⟩
  · simp [setRuntimeNetwork, truthyOptStr, he]
  · simp [setRuntimeNetwork, truthyOptStr, hc]
  · simp [setRuntimeNetwork, truthyOptStr]
  · simp [getNetwork, hn]

/-- Claim C7 witness: a concrete registry with the CLI name, the configured
name and the fallback all present/absent as needed. -/
theorem network_resolution_precedence_witness :
    (setRuntimeNetwork (some "alpha") (some "beta") "gamma" [("alpha", "urlA"), ("beta", "urlB")]
       = Except.map (fun cfg => ("alpha", cfg))
           (getNetwork "alpha" [("alpha", "urlA"), ("beta", "urlB")] "--starknet-network"))
    ∧ (setRuntimeNetwork none (some "beta") "gamma" [("alpha", "urlA"), ("beta", "urlB")]
       = Except.map (fun cfg => ("beta", cfg))
           (getNetwork "beta" [("alpha", "urlA"), ("beta", "urlB")]
             "starknet.network in hardhat.config"))
    ∧ (setRuntimeNetwork none none "gamma" [("alpha", "urlA"), ("beta", "urlB")]
       = Except.map (fun cfg => ("gamma", cfg))
           (getNetwork "gamma" [("alpha", "urlA"), ("beta", "urlB")] "default settings"))
    ∧ (getNetwork "delta" [("alpha", "urlA"), ("beta", "urlB")] "--starknet-network"
       = Except.error ("Invalid network provided in " ++ "--starknet-network"
           ++ ": " ++ "delta" ++ ".")) :=
  network_resolution_precedence [("alpha", "urlA"), ("beta", "urlB")]
    "alpha" "beta" "gamma" "delta" "--starknet-network" (some "beta")
    (by decide) (by decide) (by decide)

/-! ## Claim C10 -/

/-- Claim C10: whenever the `--starknet-network` CLI argument is supplied
(truthy) to the run action, the action throws the has-no-effect error
immediately: its trace is empty — the network is never resolved, the
recompilation cache is never touched and no unit of work (and no devnet
lifecycle step) runs. -/
theorem run_action_rejects_cli_network (s : String) (hs : sIsEmpty s = false)
    (configuredNetwork : Option String) (fallback : String)
    (networks : List (String × String)) (startOk : Bool) (runSuperFn : Proc Unit) :
    starknetRunAction (some s) configuredNetwork fallback networks startOk runSuperFn
      = ([], Except.error runActionNetworkErrorMsg) := by
  simp [starknetRunAction, truthyOptStr, hs, throwP]

/-- Claim C10 witness: with `--starknet-network alpha-goerli`, the run
action throws before emitting any event. -/
theorem run_action_rejects_cli_network_witness :
    starknetRunAction (some "alpha-goerli") (some "integrated-devnet") "integrated-devnet"
        [("alpha-goerli", "urlA"), ("integrated-devnet", "urlD")] true
        ([Ev.runFn], Except.ok ())
      = ([], Except.error runActionNetworkErrorMsg) :=
  run_action_rejects_cli_network "alpha-goerli" (by decide) (some "integrated-devnet")
    "integrated-devnet" [("alpha-goerli", "urlA"), ("integrated-devnet", "urlD")] true
    ([Ev.runFn], Except.ok ())
